import Mathlib

/-!
Verification development for the Microwalk Pin tracer
(`PinTracer.cpp`, `TraceWriter.cpp/h`, `CpuOverride.cpp`,
`CpuFeatureDefinitions.h`).

The C++ sources are shallowly embedded: machine integers become `Nat`
with explicit `% 2^w` where the source truncates, pointers into the
per-thread entry buffer become `Option Nat` indices (`none` models the
null pointer handed to non-instrumented threads), and the trace writer's
file and stream state becomes an explicit record that operations update.
-/

/-! ## Entry layout (`TraceWriter.h`) -/

/-- The size of the entry buffer (`#define ENTRY_BUFFER_SIZE 16384`). -/
def ENTRY_BUFFER_SIZE : Nat := 16384

/-- One entry of a trace buffer, mirroring `struct TraceEntry` from
`TraceWriter.h` (packed, fields in declaration order).  The C type of each
field is recorded next to it; values are kept as `Nat` and truncated on
serialization. -/
structure TraceEntry where
  /-- `TraceEntryTypes Type` (UINT32 enum). -/
  entryType : Nat
  /-- `UINT8 Flag`. -/
  Flag : Nat
  /-- `UINT8 _padding1`. -/
  padding1 : Nat
  /-- `UINT16 Param0`. -/
  Param0 : Nat
  /-- `UINT64 Param1`. -/
  Param1 : Nat
  /-- `UINT64 Param2`. -/
  Param2 : Nat
  deriving DecidableEq, Repr

/-- The zero entry; the C buffer `TraceEntry _entries[ENTRY_BUFFER_SIZE]{}`
is value-initialized to all zero bytes. -/
instance : Inhabited TraceEntry := ⟨⟨0, 0, 0, 0, 0, 0⟩⟩

/-- `enum struct TraceEntryTypes : UINT32` values. -/
def TraceEntryTypes.MemoryRead : Nat := 1

def TraceEntryTypes.MemoryWrite : Nat := 2

def TraceEntryTypes.HeapAllocSizeParameter : Nat := 3

def TraceEntryTypes.HeapAllocAddressReturn : Nat := 4

def TraceEntryTypes.HeapFreeAddressParameter : Nat := 5

def TraceEntryTypes.Branch : Nat := 6

def TraceEntryTypes.StackPointerInfo : Nat := 7

def TraceEntryTypes.StackPointerModification : Nat := 8

/-- `enum struct TraceEntryFlags : UINT8` values (`TraceWriter.h`). -/
def TraceEntryFlags.BranchNotTaken : Nat := 0

def TraceEntryFlags.BranchTaken : Nat := 1

def TraceEntryFlags.BranchTypeJump : Nat := 1 <<< 1

def TraceEntryFlags.BranchTypeCall : Nat := 2 <<< 1

def TraceEntryFlags.BranchTypeReturn : Nat := 3 <<< 1

def TraceEntryFlags.StackIsCall : Nat := 1

def TraceEntryFlags.StackIsReturn : Nat := 2

def TraceEntryFlags.StackIsOther : Nat := 3

/-! ## Byte-level serialization of `TraceEntry`

The struct is `#pragma pack(push, 1)`-packed, so its in-memory (and
on-file) image is the little-endian bytes of the fields in declaration
order with no compiler padding.  `static_assert(sizeof(TraceEntry) ==
4 + 1 + 1 + 2 + 8 + 8)` in the source pins the size. -/

/-- Little-endian serialization of an unsigned integer into `width`
bytes (truncating, as storing into a fixed-width C field does). -/
def serializeU : Nat → Nat → List Nat
  | 0, _ => []
  | w + 1, v => v % 256 :: serializeU w (v / 256)

/-- The packed byte image of a `TraceEntry`: `type` (4 bytes), `flag`
(1), padding (1), `param0` (2), `param1` (8), `param2` (8), all
little-endian, in declaration order, no padding between fields. -/
def serializeTraceEntry (e : TraceEntry) : List Nat :=
  serializeU 4 e.entryType ++ serializeU 1 e.Flag ++ serializeU 1 e.padding1 ++
    serializeU 2 e.Param0 ++ serializeU 8 e.Param1 ++ serializeU 8 e.Param2

/-- `sizeof(TraceEntry)` per the source's `static_assert`. -/
def sizeofTraceEntry : Nat := 4 + 1 + 1 + 2 + 8 + 8

/-- Little-endian value of a byte list. -/
def readLEList : List Nat → Nat
  | [] => 0
  | b :: bs => b + 256 * readLEList bs

/-- Reads the `width`-byte little-endian field at byte offset `off`. -/
def readLE (bytes : List Nat) (off width : Nat) : Nat :=
  readLEList ((bytes.drop off).take width)

theorem serializeU_length (w v : Nat) : (serializeU w v).length = w := by
  induction w generalizing v with
  | zero => rfl
  | succ w ih => simp [serializeU, ih]

theorem readLEList_serializeU (w v : Nat) :
    readLEList (serializeU w v) = v % 256 ^ w := by
  induction w generalizing v with
  | zero => simp [serializeU, readLEList, Nat.mod_one]
  | succ w ih =>
      rw [serializeU, readLEList, ih, pow_succ, mul_comm (256 ^ w) 256,
        Nat.mod_mul]

theorem serializeTraceEntry_length (e : TraceEntry) :
    (serializeTraceEntry e).length = sizeofTraceEntry := by
  simp [serializeTraceEntry, serializeU_length, sizeofTraceEntry]

/-! ## Trace-entry insertion helpers (`TraceWriter.cpp`)

Each static `TraceWriter::Insert*Entry` helper receives the per-thread
next-entry pointer and fills the slot it points to.  The pointer is
modelled as `Option Nat` — an index into the entry buffer, with `none`
for the null pointer that non-instrumented threads carry — and the
buffer as a `List TraceEntry` updated field-wise (the source assigns
individual fields, leaving the rest of the reused slot unchanged).

Some helpers begin with `if(nextEntry == NULL) return nextEntry;`; those
yield `.ok none` (a safe no-op) on a null pointer.  The helpers without
that guard immediately assign through the pointer; on a null pointer
that is a null dereference, modelled as `.nullDeref`. -/

/-- Result of one insertion helper: a normal return carrying the
returned pointer and the updated buffer, or a null-pointer dereference
(the source writes through the pointer unconditionally). -/
inductive InsertResult where
  | ok (nextEntry : Option Nat) (buf : List TraceEntry)
  | nullDeref
  deriving DecidableEq, Repr

/-- The pointer returned by a helper (meaningful for `.ok`). -/
def InsertResult.ptr : InsertResult → Option Nat
  | .ok n _ => n
  | .nullDeref => none

/-- `TraceWriter::InsertMemoryReadEntry` — no null guard; sets `Type`,
`Param0` (UINT16, truncating the UINT32 size), `Param1`, `Param2` and
returns `++nextEntry`. -/
def InsertMemoryReadEntry (buf : List TraceEntry) (nextEntry : Option Nat)
    (instructionAddress memoryAddress size : Nat) : InsertResult :=
  match nextEntry with
  | none => .nullDeref
  | some i =>
      .ok (some (i + 1)) (buf.set i
        { buf.getD i default with
          entryType := TraceEntryTypes.MemoryRead
          Param0 := size % 2 ^ 16
          Param1 := instructionAddress
          Param2 := memoryAddress })

/-- `TraceWriter::InsertMemoryWriteEntry` — no null guard. -/
def InsertMemoryWriteEntry (buf : List TraceEntry) (nextEntry : Option Nat)
    (instructionAddress memoryAddress size : Nat) : InsertResult :=
  match nextEntry with
  | none => .nullDeref
  | some i =>
      .ok (some (i + 1)) (buf.set i
        { buf.getD i default with
          entryType := TraceEntryTypes.MemoryWrite
          Param0 := size % 2 ^ 16
          Param1 := instructionAddress
          Param2 := memoryAddress })

/-- `TraceWriter::InsertHeapAllocSizeParameterEntry` — guarded:
`if(nextEntry == NULL) return nextEntry;`. -/
def InsertHeapAllocSizeParameterEntry (buf : List TraceEntry)
    (nextEntry : Option Nat) (size : Nat) : InsertResult :=
  match nextEntry with
  | none => .ok none buf
  | some i =>
      .ok (some (i + 1)) (buf.set i
        { buf.getD i default with
          entryType := TraceEntryTypes.HeapAllocSizeParameter
          Param1 := size })

/-- `TraceWriter::InsertCallocSizeParameterEntry` — forwards
`count * size` (UINT64 product, truncating) to the previous helper. -/
def InsertCallocSizeParameterEntry (buf : List TraceEntry)
    (nextEntry : Option Nat) (count size : Nat) : InsertResult :=
  InsertHeapAllocSizeParameterEntry buf nextEntry (count * size % 2 ^ 64)

/-- `TraceWriter::InsertHeapAllocAddressReturnEntry` — guarded. -/
def InsertHeapAllocAddressReturnEntry (buf : List TraceEntry)
    (nextEntry : Option Nat) (memoryAddress : Nat) : InsertResult :=
  match nextEntry with
  | none => .ok none buf
  | some i =>
      .ok (some (i + 1)) (buf.set i
        { buf.getD i default with
          entryType := TraceEntryTypes.HeapAllocAddressReturn
          Param2 := memoryAddress })

/-- `TraceWriter::InsertHeapFreeAddressParameterEntry` — guarded. -/
def InsertHeapFreeAddressParameterEntry (buf : List TraceEntry)
    (nextEntry : Option Nat) (memoryAddress : Nat) : InsertResult :=
  match nextEntry with
  | none => .ok none buf
  | some i =>
      .ok (some (i + 1)) (buf.set i
        { buf.getD i default with
          entryType := TraceEntryTypes.HeapFreeAddressParameter
          Param2 := memoryAddress })

/-- `TraceWriter::InsertStackPointerModificationEntry` — guarded; sets
`Type`, `Flag`, `Param1`, `Param2`. -/
def InsertStackPointerModificationEntry (buf : List TraceEntry)
    (nextEntry : Option Nat) (instructionAddress newStackPointer flags : Nat) :
    InsertResult :=
  match nextEntry with
  | none => .ok none buf
  | some i =>
      .ok (some (i + 1)) (buf.set i
        { buf.getD i default with
          entryType := TraceEntryTypes.StackPointerModification
          Flag := flags
          Param1 := instructionAddress
          Param2 := newStackPointer })

/-- `TraceWriter::InsertBranchEntry` — no null guard; sets `Type`,
`Param1`, `Param2` and
`Flag = type | (taken == 0 ? BranchNotTaken : BranchTaken)`. -/
def InsertBranchEntry (buf : List TraceEntry) (nextEntry : Option Nat)
    (sourceAddress targetAddress taken btype : Nat) : InsertResult :=
  match nextEntry with
  | none => .nullDeref
  | some i =>
      .ok (some (i + 1)) (buf.set i
        { buf.getD i default with
          entryType := TraceEntryTypes.Branch
          Param1 := sourceAddress
          Param2 := targetAddress
          Flag := btype |||
            (if taken = 0 then TraceEntryFlags.BranchNotTaken
             else TraceEntryFlags.BranchTaken) })

/-- `TraceWriter::InsertRetBranchEntry` — reads the post-return
instruction pointer from the Pin context (passed here directly as
`retAddress`) and delegates with `taken = true` and
`type = BranchTypeReturn`; no null guard on the delegated path. -/
def InsertRetBranchEntry (buf : List TraceEntry) (nextEntry : Option Nat)
    (sourceAddress retAddress : Nat) : InsertResult :=
  InsertBranchEntry buf nextEntry sourceAddress retAddress 1
    TraceEntryFlags.BranchTypeReturn

/-- `TraceWriter::InsertStackPointerInfoEntry` — no null guard; sets
`Type`, `Param1`, `Param2`. -/
def InsertStackPointerInfoEntry (buf : List TraceEntry)
    (nextEntry : Option Nat) (stackPointerMin stackPointerMax : Nat) :
    InsertResult :=
  match nextEntry with
  | none => .nullDeref
  | some i =>
      .ok (some (i + 1)) (buf.set i
        { buf.getD i default with
          entryType := TraceEntryTypes.StackPointerInfo
          Param1 := stackPointerMin
          Param2 := stackPointerMax })

/-- `CheckNextTraceEntryPointerValid` (`PinTracer.cpp`): returns the
pointer itself as an integer; Pin's `InsertIfCall` treats a nonzero
result as "run the then-call".  A non-null buffer pointer is a nonzero
address, so this is the `isSome` test. -/
def CheckNextTraceEntryPointerValid (nextEntry : Option Nat) : Bool :=
  nextEntry.isSome

/-- `TraceWriter::CheckBufferFull`:
`nextEntry != NULL && nextEntry == entryBufferEnd`. -/
def CheckBufferFull (nextEntry entryBufferEnd : Option Nat) : Bool :=
  nextEntry.isSome && nextEntry == entryBufferEnd

/-- An `INS_InsertIfCall(CheckNextTraceEntryPointerValid)` /
`INS_InsertThenCall(helper)` pair, as `InstrumentTrace` emits around
every memory-access, branch and stack-modification hook: the helper runs
only when the guard returns nonzero, so a null next-entry pointer skips
it and the state is untouched.  The `InsertStackPointerInfoEntry`
routine hook in `InstrumentImage` is inserted by a plain
`RTN_InsertCall` with no such guard. -/
def guardedInsertCall (buf : List TraceEntry) (nextEntry : Option Nat)
    (helper : List TraceEntry → Option Nat → InsertResult) : InsertResult :=
  if CheckNextTraceEntryPointerValid nextEntry then helper buf nextEntry
  else .ok nextEntry buf

/-! ## Image registry (`TraceWriter.cpp` / `PinTracer.cpp`) -/

/-- `struct ImageData` (`TraceWriter.h`): metadata of one loaded image. -/
structure ImageData where
  interesting : Bool
  name : String
  startAddress : Nat
  endAddress : Nat
  deriving DecidableEq, Repr

/-- `ImageData::ContainsBasicBlock`: the block's head-instruction and
tail-instruction addresses both lie in `[_startAddress, _endAddress]`. -/
def ImageData.ContainsBasicBlock (img : ImageData)
    (blockHeadAddress blockTailAddress : Nat) : Bool :=
  decide (img.startAddress ≤ blockHeadAddress) &&
    decide (blockTailAddress ≤ img.endAddress)

/-- `ImageData::IsInteresting`. -/
def ImageData.IsInteresting (img : ImageData) : Bool :=
  img.interesting

/-- The linear first-match scan of the registry performed at the top of
`InstrumentTrace` (`for(ImageData* i : _images) if(i->ContainsBasicBlock(bbl)) ...`). -/
def findContainingImage (images : List ImageData)
    (blockHeadAddress blockTailAddress : Nat) : Option ImageData :=
  images.find? (fun i => i.ContainsBasicBlock blockHeadAddress blockTailAddress)

/-! ## Trace writer state (`TraceWriter.cpp` + runtime glue in `PinTracer.cpp`)

The writer's observable state: the currently open output file (name and
bytes written so far), the files already closed, the testcase id
(`-1` = idle), the static prefix-mode flag and metadata file, the
process-wide image registry, and the stdout/stderr streams.  File
contents are tracked as byte counts (trace files) and line lists
(metadata file / console); a flush of `n` entries appends
`n * sizeof(TraceEntry)` bytes, exactly as the pointer-difference write
in `WriteBufferToFile` does. -/

structure TracerState where
  /-- `_outputFilenamePrefix`, abbreviated. -/
  outputFilenamePfx : String
  /-- `_currentOutputFilename`. -/
  currentOutputFilename : String
  /-- Bytes written so far to the currently open output file. -/
  outputFileBytes : Nat
  /-- Closed output files: name and final size in bytes. -/
  closedFiles : List (String × Nat)
  /-- `_testcaseId` (`-1` = idle). -/
  testcaseId : Int
  /-- static `_prefixMode`. -/
  prefixMode : Bool
  /-- Whether the static `_prefixDataFileStream` is open. -/
  prefixDataOpen : Bool
  /-- Lines written to `prefix_data.txt`. -/
  prefixDataLines : List String
  /-- Lines written to stdout. -/
  stdoutLines : List String
  /-- Lines written to stderr. -/
  stderrLines : List String
  /-- `_images`, the process-wide image registry. -/
  images : List ImageData
  deriving DecidableEq, Repr

/-- State after `TraceWriter::InitPrefixMode`, the `TraceWriter`
constructor (opens `"{prefix}prefix.trace"`) and `ThreadStart` for
thread 0 (next-entry pointer = `Begin()`, i.e. index 0). -/
def initialTracerState (pfx : String) : TracerState :=
  { outputFilenamePfx := pfx
    currentOutputFilename := pfx ++ "prefix.trace"
    outputFileBytes := 0
    closedFiles := []
    testcaseId := -1
    prefixMode := true
    prefixDataOpen := true
    prefixDataLines := []
    stdoutLines := []
    stderrLines := ["Trace prefix mode started"]
    images := [] }

/-- `TraceWriter::WriteBufferToFile(end)`: writes the byte range from
`_entries` up to `end` — i.e. `end` whole entries — into the current
output file, but only when `_testcaseId != -1 || _prefixMode`. -/
def WriteBufferToFile (s : TracerState) (endIdx : Nat) : TracerState :=
  if s.testcaseId != -1 || s.prefixMode then
    { s with outputFileBytes := s.outputFileBytes + endIdx * sizeofTraceEntry }
  else
    s

/-- `TraceWriter::OpenOutputFile`: truncate-opens `filename` as the new
current output file. -/
def OpenOutputFile (filename : String) (s : TracerState) : TracerState :=
  { s with currentOutputFilename := filename, outputFileBytes := 0 }

/-- `TraceWriter::TestcaseEnd(nextEntry)`: flush `[begin, next)` when
non-empty, close the output file, leave prefix mode (closing the
metadata file) or emit the stdout completion line, and go idle. -/
def TestcaseEnd (nextEntry : Nat) (s : TracerState) : TracerState :=
  let s1 := if nextEntry != 0 then WriteBufferToFile s nextEntry else s
  let s2 := { s1 with
    closedFiles := (s1.currentOutputFilename, s1.outputFileBytes) :: s1.closedFiles }
  let s3 :=
    if s2.prefixMode then
      { s2 with
        prefixDataOpen := false
        prefixMode := false
        stderrLines := s2.stderrLines ++ ["Trace prefix mode ended"] }
    else
      { s2 with
        stdoutLines := s2.stdoutLines ++ ["t\t" ++ s2.currentOutputFilename] }
  { s3 with testcaseId := -1 }

/-- `TraceWriter::TestcaseStart(testcaseId, nextEntry)`: leave prefix
mode via `TestcaseEnd` if needed, store the new testcase id and
truncate-open `"{prefix}t{id}.trace"`. -/
def TestcaseStart (testcaseId : Int) (nextEntry : Nat) (s : TracerState) :
    TracerState :=
  let s1 := if s.prefixMode then TestcaseEnd nextEntry s else s
  let s2 := { s1 with testcaseId := testcaseId }
  let s3 := OpenOutputFile
    (s2.outputFilenamePfx ++ "t" ++ toString testcaseId ++ ".trace") s2
  { s3 with stderrLines := s3.stderrLines ++
      ["Switched to testcase #" ++ toString testcaseId] }

/-- Lowercase hex rendering used by `std::hex` in the metadata line. -/
def hexString (n : Nat) : String :=
  String.mk (Nat.toDigits 16 n)

/-- The metadata line `"i\t{interesting}\t{start_hex}\t{end_hex}\t{name}"`
written by `WriteImageLoadData` in prefix mode. -/
def imageLoadLine (interesting startAddress endAddress : Nat)
    (name : String) : String :=
  "i\t" ++ toString interesting ++ "\t" ++ hexString startAddress ++ "\t" ++
    hexString endAddress ++ "\t" ++ name

/-- `TraceWriter::WriteImageLoadData`: outside prefix mode, log
`"Image load ignored: {name}"` to stderr and return without touching the
metadata file; in prefix mode, append the image line to it. -/
def WriteImageLoadData (s : TracerState) (interesting : Nat)
    (startAddress endAddress : Nat) (name : String) : TracerState :=
  if !s.prefixMode then
    { s with stderrLines := s.stderrLines ++ ["Image load ignored: " ++ name] }
  else
    { s with prefixDataLines := s.prefixDataLines ++
        [imageLoadLine interesting startAddress endAddress name] }

/-- The image-load callback `InstrumentImage` (`PinTracer.cpp`), image
registration part: record the image in the metadata file via
`WriteImageLoadData`, then append an `ImageData` record to the
process-wide `_images` registry.  The `interesting` flag is the result
of the source's case-insensitive substring match of the image path
against the `-i` list, passed here as an input. -/
def InstrumentImage (s : TracerState) (interesting : Bool)
    (imageName : String) (imageStart imageEnd : Nat) : TracerState :=
  let s1 := WriteImageLoadData s (if interesting then 1 else 0)
    imageStart imageEnd imageName
  { s1 with
    images := s1.images ++ [⟨interesting, imageName, imageStart, imageEnd⟩]
    stderrLines := s1.stderrLines ++
      ["Image '" ++ imageName ++ "' loaded"] }

/-- `CheckBufferAndStore` (`PinTracer.cpp`): on the main thread with
non-null pointers, if the buffer is full, write the whole buffer
`[begin, end)` to the current file and return `Begin()` (index 0);
otherwise return the pointer unchanged. -/
def CheckBufferAndStore (tid : Nat) (nextEntry entryBufferEnd : Option Nat)
    (s : TracerState) : TracerState × Option Nat :=
  if tid != 0 || nextEntry.isNone || entryBufferEnd.isNone then
    (s, nextEntry)
  else if CheckBufferFull nextEntry entryBufferEnd then
    (WriteBufferToFile s (entryBufferEnd.getD 0), some 0)
  else
    (s, nextEntry)

/-! ## Runtime event sequences on the instrumented thread

The planner (`InstrumentTrace` / `InstrumentImage` routine hooks)
arranges that, on thread 0, every hook that appends an entry advances
the next-entry pointer by one and is immediately followed by a
`CheckBufferFull`/`CheckBufferAndStore` pair, and that the testcase
marker routines call `TestcaseStart`/`TestcaseEnd` and reset the pointer
to `Begin()`.  An event abstracts one such guarded hook execution. -/

inductive TraceEvent where
  /-- One entry-appending hook followed by its buffer-full check. -/
  | insertEntry
  /-- `PinNotifyTestcaseStart(id)` entry hook. -/
  | testcaseStart (id : Int)
  /-- `PinNotifyTestcaseEnd()` entry hook. -/
  | testcaseEnd
  deriving DecidableEq, Repr

/-- One runtime event on thread 0, acting on the writer state and the
next-entry index. -/
def eventStep : TracerState × Nat → TraceEvent → TracerState × Nat
  | (s, next), .insertEntry =>
      match CheckBufferAndStore 0 (some (next + 1)) (some ENTRY_BUFFER_SIZE) s with
      | (s', n') => (s', n'.getD 0)
  | (s, next), .testcaseStart id => (TestcaseStart id next s, 0)
  | (s, next), .testcaseEnd => (TestcaseEnd next s, 0)

/-- A whole run of events on thread 0. -/
def runEvents (p : TracerState × Nat) (events : List TraceEvent) :
    TracerState × Nat :=
  events.foldl eventStep p

/-- All trace files consist of whole entries: the open file's byte count
and every closed file's size are multiples of `sizeof(TraceEntry)`. -/
def SizesOk (s : TracerState) : Prop :=
  s.outputFileBytes % sizeofTraceEntry = 0 ∧
    ∀ f ∈ s.closedFiles, f.2 % sizeofTraceEntry = 0

/-! ## CPU profiles (`CpuFeatureDefinitions.h`) -/

/-- `#define FEAT(v) (1U << ((FEATURE_v) % 32))`. -/
def FEAT (featureBit : Nat) : Nat := 1 <<< (featureBit % 32)

/-- Feature-bit numbers from `feature_bit_t` (only those the profile
table uses); standard edx bits. -/
def FEATURE_FPU : Nat := 0

def FEATURE_VME : Nat := 1

def FEATURE_DE : Nat := 2

def FEATURE_PSE : Nat := 3

def FEATURE_TSC : Nat := 4

def FEATURE_MSR : Nat := 5

def FEATURE_PAE : Nat := 6

def FEATURE_MCE : Nat := 7

def FEATURE_CX8 : Nat := 8

def FEATURE_APIC : Nat := 9

def FEATURE_SEP : Nat := 11

def FEATURE_MTRR : Nat := 12

def FEATURE_PGE : Nat := 13

def FEATURE_MCA : Nat := 14

def FEATURE_CMOV : Nat := 15

def FEATURE_PAT : Nat := 16

def FEATURE_PSE_36 : Nat := 17

def FEATURE_CLFSH : Nat := 19

def FEATURE_DS : Nat := 21

def FEATURE_ACPI : Nat := 22

def FEATURE_MMX : Nat := 23

def FEATURE_FXSR : Nat := 24

def FEATURE_SSE : Nat := 25

def FEATURE_SSE2 : Nat := 26

def FEATURE_SS : Nat := 27

def FEATURE_HTT : Nat := 28

def FEATURE_TM : Nat := 29

def FEATURE_PBE : Nat := 31

/-- Standard ecx bits (`n + 32`). -/
def FEATURE_SSE3 : Nat := 0 + 32

def FEATURE_PCLMULQDQ : Nat := 1 + 32

def FEATURE_DTES64 : Nat := 2 + 32

def FEATURE_MONITOR : Nat := 3 + 32

def FEATURE_DS_CPL : Nat := 4 + 32

def FEATURE_VMX : Nat := 5 + 32

def FEATURE_SMX : Nat := 6 + 32

def FEATURE_EST : Nat := 7 + 32

def FEATURE_TM2 : Nat := 8 + 32

def FEATURE_SSSE3 : Nat := 9 + 32

def FEATURE_CID : Nat := 10 + 32

def FEATURE_CX16 : Nat := 13 + 32

def FEATURE_xTPR : Nat := 14 + 32

def FEATURE_PDCM : Nat := 15 + 32

def FEATURE_PCID : Nat := 17 + 32

def FEATURE_SSE41 : Nat := 19 + 32

def FEATURE_SSE42 : Nat := 20 + 32

def FEATURE_x2APIC : Nat := 21 + 32

def FEATURE_POPCNT : Nat := 23 + 32

def FEATURE_AES : Nat := 25 + 32

def FEATURE_XSAVE : Nat := 26 + 32

def FEATURE_OSXSAVE : Nat := 27 + 32

def FEATURE_AVX : Nat := 28 + 32

def FEATURE_F16C : Nat := 29 + 32

def FEATURE_RDRAND : Nat := 30 + 32

/-- Extended edx bits (`n + 64`). -/
def FEATURE_XD_Bit : Nat := 20 + 64

def FEATURE_PDPE1GB : Nat := 26 + 64

def FEATURE_RDTSCP : Nat := 27 + 64

def FEATURE_EM64T : Nat := 29 + 64

/-- Extended ecx bits (`n + 96`). -/
def FEATURE_LAHF : Nat := 0 + 96

/-- Structured-extended ebx bits (`n + 128`). -/
def FEATURE_FSGSBASE : Nat := 0 + 128

def FEATURE_ERMSB : Nat := 9 + 128

/-- `struct _cpuid_model_t`. -/
structure cpuid_model_t where
  max_input : Nat
  max_ext_input : Nat
  encoded_family : Nat
  features_edx : Nat
  features_ecx : Nat
  features_ext_edx : Nat
  features_ext_ecx : Nat
  features_sext_ebx : Nat
  deriving DecidableEq, Repr

/-- `cpuid_encode_family` — the Intel packed
family/model/stepping encoding. -/
def cpuid_encode_family (family model stepping : Nat) : Nat :=
  let ext_model := if family = 6 || family = 15 then model >>> 4 else 0
  let model := if family = 6 || family = 15 then model &&& 0xf else model
  let ext_family := if family ≥ 15 then family - 15 else 0
  let family := if family ≥ 15 then 15 else family
  (ext_family <<< 20) ||| (ext_model <<< 16) ||| (family <<< 8) |||
    (model <<< 4) ||| stepping

/-- `model_Pentium3`. -/
def model_Pentium3 : cpuid_model_t :=
  { max_input := 3
    max_ext_input := 0
    encoded_family := 0x672
    features_edx :=
      FEAT FEATURE_FPU ||| FEAT FEATURE_VME ||| FEAT FEATURE_DE |||
      FEAT FEATURE_PSE ||| FEAT FEATURE_TSC ||| FEAT FEATURE_MSR |||
      FEAT FEATURE_MCE ||| FEAT FEATURE_MTRR ||| FEAT FEATURE_MCA |||
      FEAT FEATURE_PGE ||| FEAT FEATURE_PAE ||| FEAT FEATURE_PSE_36 |||
      FEAT FEATURE_PAT ||| FEAT FEATURE_CX8 ||| FEAT FEATURE_CMOV |||
      FEAT FEATURE_MMX ||| FEAT FEATURE_SEP ||| FEAT FEATURE_FXSR |||
      FEAT FEATURE_SSE
    features_ecx := 0
    features_ext_edx := 0
    features_ext_ecx := 0
    features_sext_ebx := 0 }

/-- `model_Merom`. -/
def model_Merom : cpuid_model_t :=
  { max_input := 10
    max_ext_input := 0x80000008
    encoded_family := 0x6fb
    features_edx :=
      FEAT FEATURE_FPU ||| FEAT FEATURE_VME ||| FEAT FEATURE_DE |||
      FEAT FEATURE_PSE ||| FEAT FEATURE_TSC ||| FEAT FEATURE_MSR |||
      FEAT FEATURE_MCE ||| FEAT FEATURE_MTRR ||| FEAT FEATURE_MCA |||
      FEAT FEATURE_PGE ||| FEAT FEATURE_PAE ||| FEAT FEATURE_PSE_36 |||
      FEAT FEATURE_PAT ||| FEAT FEATURE_APIC ||| FEAT FEATURE_DS |||
      FEAT FEATURE_SS ||| FEAT FEATURE_TM ||| FEAT FEATURE_ACPI |||
      FEAT FEATURE_PBE ||| FEAT FEATURE_CX8 ||| FEAT FEATURE_CMOV |||
      FEAT FEATURE_MMX ||| FEAT FEATURE_SEP ||| FEAT FEATURE_FXSR |||
      FEAT FEATURE_SSE ||| FEAT FEATURE_SSE2 ||| FEAT FEATURE_CLFSH
    features_ecx :=
      FEAT FEATURE_DTES64 ||| FEAT FEATURE_DS_CPL ||| FEAT FEATURE_CID |||
      FEAT FEATURE_xTPR ||| FEAT FEATURE_EST ||| FEAT FEATURE_TM2 |||
      FEAT FEATURE_VMX ||| FEAT FEATURE_SMX ||| FEAT FEATURE_PDCM |||
      FEAT FEATURE_SSE3 ||| FEAT FEATURE_MONITOR ||| FEAT FEATURE_CX16 |||
      FEAT FEATURE_SSSE3
    features_ext_edx := FEAT FEATURE_EM64T ||| FEAT FEATURE_XD_Bit
    features_ext_ecx := FEAT FEATURE_LAHF
    features_sext_ebx := 0 }

/-- `model_Westmere`. -/
def model_Westmere : cpuid_model_t :=
  { max_input := 10
    max_ext_input := 0x80000008
    encoded_family := 0x206c2
    features_edx :=
      FEAT FEATURE_FPU ||| FEAT FEATURE_VME ||| FEAT FEATURE_DE |||
      FEAT FEATURE_PSE ||| FEAT FEATURE_TSC ||| FEAT FEATURE_MSR |||
      FEAT FEATURE_MCE ||| FEAT FEATURE_MTRR ||| FEAT FEATURE_MCA |||
      FEAT FEATURE_PGE ||| FEAT FEATURE_PAE ||| FEAT FEATURE_PSE_36 |||
      FEAT FEATURE_PAT ||| FEAT FEATURE_APIC ||| FEAT FEATURE_DS |||
      FEAT FEATURE_SS ||| FEAT FEATURE_TM ||| FEAT FEATURE_ACPI |||
      FEAT FEATURE_HTT ||| FEAT FEATURE_PBE ||| FEAT FEATURE_CX8 |||
      FEAT FEATURE_CMOV ||| FEAT FEATURE_MMX ||| FEAT FEATURE_SEP |||
      FEAT FEATURE_FXSR ||| FEAT FEATURE_SSE ||| FEAT FEATURE_SSE2 |||
      FEAT FEATURE_CLFSH
    features_ecx :=
      FEAT FEATURE_DTES64 ||| FEAT FEATURE_DS_CPL ||| FEAT FEATURE_CID |||
      FEAT FEATURE_xTPR ||| FEAT FEATURE_EST ||| FEAT FEATURE_TM2 |||
      FEAT FEATURE_VMX ||| FEAT FEATURE_SMX ||| FEAT FEATURE_PDCM |||
      FEAT FEATURE_PCID ||| FEAT FEATURE_SSE3 ||| FEAT FEATURE_MONITOR |||
      FEAT FEATURE_CX16 ||| FEAT FEATURE_SSSE3 ||| FEAT FEATURE_SSE41 |||
      FEAT FEATURE_SSE42 ||| FEAT FEATURE_POPCNT ||| FEAT FEATURE_AES |||
      FEAT FEATURE_PCLMULQDQ
    features_ext_edx :=
      FEAT FEATURE_EM64T ||| FEAT FEATURE_XD_Bit ||| FEAT FEATURE_RDTSCP |||
      FEAT FEATURE_PDPE1GB
    features_ext_ecx := FEAT FEATURE_LAHF
    features_sext_ebx := 0 }

/-- `model_Ivybridge`. -/
def model_Ivybridge : cpuid_model_t :=
  { max_input := 11
    max_ext_input := 0x80000008
    encoded_family := 0x306a9
    features_edx :=
      FEAT FEATURE_FPU ||| FEAT FEATURE_VME ||| FEAT FEATURE_DE |||
      FEAT FEATURE_PSE ||| FEAT FEATURE_TSC ||| FEAT FEATURE_MSR |||
      FEAT FEATURE_MCE ||| FEAT FEATURE_MTRR ||| FEAT FEATURE_MCA |||
      FEAT FEATURE_PGE ||| FEAT FEATURE_PAE ||| FEAT FEATURE_PSE_36 |||
      FEAT FEATURE_PAT ||| FEAT FEATURE_APIC ||| FEAT FEATURE_DS |||
      FEAT FEATURE_SS ||| FEAT FEATURE_TM ||| FEAT FEATURE_ACPI |||
      FEAT FEATURE_HTT ||| FEAT FEATURE_PBE ||| FEAT FEATURE_CX8 |||
      FEAT FEATURE_CMOV ||| FEAT FEATURE_MMX ||| FEAT FEATURE_SEP |||
      FEAT FEATURE_FXSR ||| FEAT FEATURE_SSE ||| FEAT FEATURE_SSE2 |||
      FEAT FEATURE_CLFSH
    features_ecx :=
      FEAT FEATURE_DTES64 ||| FEAT FEATURE_DS_CPL ||| FEAT FEATURE_CID |||
      FEAT FEATURE_xTPR ||| FEAT FEATURE_EST ||| FEAT FEATURE_TM2 |||
      FEAT FEATURE_VMX ||| FEAT FEATURE_SMX ||| FEAT FEATURE_PDCM |||
      FEAT FEATURE_PCID ||| FEAT FEATURE_x2APIC ||| FEAT FEATURE_SSE3 |||
      FEAT FEATURE_MONITOR ||| FEAT FEATURE_CX16 ||| FEAT FEATURE_SSSE3 |||
      FEAT FEATURE_SSE41 ||| FEAT FEATURE_SSE42 ||| FEAT FEATURE_POPCNT |||
      FEAT FEATURE_AES ||| FEAT FEATURE_PCLMULQDQ ||| FEAT FEATURE_AVX |||
      FEAT FEATURE_XSAVE ||| FEAT FEATURE_OSXSAVE ||| FEAT FEATURE_F16C |||
      FEAT FEATURE_RDRAND
    features_ext_edx :=
      FEAT FEATURE_EM64T ||| FEAT FEATURE_XD_Bit ||| FEAT FEATURE_RDTSCP
    features_ext_ecx := FEAT FEATURE_LAHF
    features_sext_ebx := FEAT FEATURE_FSGSBASE ||| FEAT FEATURE_ERMSB }

/-! ## CPUID rewrite (`CpuOverride.cpp`) -/

/-- `SetEmulatedCpu(id)`: ids 1–4 select a profile; any other id clears
`_emulateCpuModel` (modelled as `none`, i.e. no rewriting). -/
def SetEmulatedCpu (id : Int) : Option cpuid_model_t :=
  if id = 1 then some model_Pentium3
  else if id = 2 then some model_Merom
  else if id = 3 then some model_Westmere
  else if id = 4 then some model_Ivybridge
  else none

/-- The four output registers of a `cpuid` instruction (the values the
hardware instruction produced, which `ChangeCpuId` selectively
overwrites through its `UINT32*` reference arguments). -/
structure CpuidRegs where
  eax : Nat
  ebx : Nat
  ecx : Nat
  edx : Nat
  deriving DecidableEq, Repr

/-- `ChangeCpuId(inputEax, inputEcx, &eax, &ebx, &ecx, &edx)`
(`CpuOverride.cpp`): with no emulated model, return immediately;
otherwise rewrite the registers by requested leaf. -/
def ChangeCpuId (model : Option cpuid_model_t) (inputEax inputEcx : Nat)
    (regs : CpuidRegs) : CpuidRegs :=
  match model with
  | none => regs
  | some m =>
      if inputEax = 0 then
        { regs with
          eax := m.max_input
          ebx := 0x756e6547
          edx := 0x49656e69
          ecx := 0x6c65746e }
      else if inputEax = 1 then
        { regs with
          eax := m.encoded_family
          edx := m.features_edx
          ecx := m.features_ecx }
      else if inputEax = 0x80000000 then
        { regs with eax := m.max_ext_input }
      else if inputEax = 0x80000001 then
        if m.max_ext_input ≥ 0x80000001 then
          { regs with edx := m.features_ext_edx, ecx := m.features_ext_ecx }
        else
          { regs with edx := 0, ecx := 0 }
      else if inputEax = 7 ∧ inputEcx = 0 then
        if m.max_input ≥ 7 then
          { regs with ebx := m.features_sext_ebx }
        else
          { regs with ebx := 0 }
      else
        regs

/-! ## RDRAND substitution (`PinTracer.cpp`) -/

/-- The magic knob default `0xBADBADBADBADBAD`: Pin cannot tell whether
`-r` was actually passed, so this value means "no fixed random
numbers". -/
def RDRAND_SENTINEL : Nat := 0xBADBADBADBADBAD

/-- `main`: `_useFixedRandomNumber` is set iff the `-r` knob value
differs from the sentinel. -/
def useFixedRandomNumber (knobValue : Nat) : Bool :=
  knobValue != RDRAND_SENTINEL

/-- `main`: `_fixedRandomNumber` is the knob value when enabled and
stays `0` otherwise. -/
def fixedRandomNumber (knobValue : Nat) : Nat :=
  if useFixedRandomNumber knobValue then knobValue else 0

/-- Destination register after an executed `rdrand r64` under the tool:
`InstrumentTrace` inserts the `ChangeRandomNumber` after-hook (which
overwrites the destination with `_fixedRandomNumber`) only when
`_useFixedRandomNumber` is set; otherwise the hardware entropy value
remains. -/
def rdrandDestAfter (knobValue hostEntropyValue : Nat) : Nat :=
  if useFixedRandomNumber knobValue then fixedRandomNumber knobValue
  else hostEntropyValue

/-! ## Basic-block classification (`InstrumentTrace`) -/

/-- Modelled from the spec: the warning-suppression flag of the newer
tracer variant ("emit a warning unless libc load is pending").  The
provided tracer source contains only the legacy `InstrumentTrace`, which
performs the same registry scan and conservative classification but has
no suppression flag; the flag is therefore taken from the spec and
threaded as the `libcLoadPending` input below. -/
def warnOnUnresolvedBlock (libcLoadPending : Bool) : Bool :=
  !libcLoadPending

/-- Block classification at the top of `InstrumentTrace`: scan the image
registry for the first image containing the block; if none contains it,
instrument as interesting (defensive) and emit the stderr warning —
suppressed while libc load is pending (spec-modelled, see
`warnOnUnresolvedBlock`).  Returns `(interesting, warningEmitted)`. -/
def classifyBasicBlock (images : List ImageData) (libcLoadPending : Bool)
    (blockHeadAddress blockTailAddress : Nat) : Bool × Bool :=
  match findContainingImage images blockHeadAddress blockTailAddress with
  | none => (true, warnOnUnresolvedBlock libcLoadPending)
  | some img => (img.IsInteresting, false)

/-! ## Allocation-return tracker

Modelled from the spec: the depth-counting allocation-return tracker of
the newer tracer variant (spec section 4.5).  The provided tracer source
instruments allocator returns with the legacy `IPOINT_AFTER` hook only;
the depth-counter implementation is not among the sources, so its state
machine is taken from the spec's transition rules. -/

/-- A runtime event seen by the tracker once the allocator entry hook
has armed it: a `call` instruction or a `ret` carrying the value of the
return-value register at that point. -/
inductive TrackerEvent where
  | call
  | ret (returnValue : Nat)
  deriving DecidableEq, Repr

/-- Modelled from the spec: one tracker transition.  `depth` starts at
`-1` (inactive); the allocator entry hook sets it to `0`.  On call: if
`depth ≥ 0`, increment.  On ret: if `depth < 0` do nothing; else
decrement, and if the result is below zero emit
`HeapAllocAddressReturn(returnValue)` (the emitted address is the second
component) and remain at `-1` (deactivated). -/
def trackerStep (depth : Int) (ev : TrackerEvent) : Int × Option Nat :=
  match ev with
  | .call => (if 0 ≤ depth then depth + 1 else depth, none)
  | .ret returnValue =>
      if depth < 0 then (depth, none)
      else if depth - 1 < 0 then (depth - 1, some returnValue)
      else (depth - 1, none)

/-- Modelled from the spec: run the tracker over an event sequence,
collecting the emitted `HeapAllocAddressReturn` addresses in order. -/
def trackerRun (depth : Int) : List TrackerEvent → Int × List Nat
  | [] => (depth, [])
  | ev :: evs =>
      match trackerStep depth ev with
      | (d, emitted) =>
          match trackerRun d evs with
          | (d', rest) => (d', emitted.toList ++ rest)

/-- Net call/ret depth of an event sequence. -/
def netDepth : List TrackerEvent → Int
  | [] => 0
  | .call :: evs => 1 + netDepth evs
  | .ret _ :: evs => -1 + netDepth evs

/-- The tracker-related trace entries of one instrumented allocation:
the allocator entry hook emits `HeapAllocSizeParameter(size)` and arms
the tracker (depth `0`); the armed tracker then processes the events of
the callee's execution followed by the final `ret` carrying address `A`,
emitting one `HeapAllocAddressReturn` per `some` it produces. -/
def allocatorTrackerTrace (size : Nat) (events : List TrackerEvent)
    (A : Nat) : List TraceEntry :=
  { (default : TraceEntry) with
    entryType := TraceEntryTypes.HeapAllocSizeParameter
    Param1 := size } ::
  (trackerRun 0 (events ++ [.ret A])).2.map (fun a =>
    { (default : TraceEntry) with
      entryType := TraceEntryTypes.HeapAllocAddressReturn
      Param2 := a })


/-! ## Theorems -/

theorem readLE_at (l1 l2 l3 : List Nat) (off w : Nat)
    (h1 : l1.length = off) (h2 : l2.length = w) :
    readLE (l1 ++ l2 ++ l3) off w = readLEList l2 := by
  rw [List.append_assoc, ← h1, readLE, List.drop_left, ← h2, List.take_left]

theorem flatten_serialize_length (es : List TraceEntry) :
    ((es.map serializeTraceEntry).flatten).length = 24 * es.length := by
  induction es with
  | nil => simp
  | cons e es ih =>
      have h := serializeTraceEntry_length e
      simp only [List.map_cons, List.flatten_cons, List.length_append, ih, h,
        List.length_cons, sizeofTraceEntry]
      omega

/-- C2: the serialized `TraceEntry` is exactly 24 bytes with no implicit
padding: `type` is the 4-byte little-endian field at offset 0, `flag`
the byte at 4, the padding byte at 5, `param0` the 2-byte field at 6,
`param1` the 8-byte field at 8 and `param2` the 8-byte field at 16; a
serialized sequence of entries is exactly 24 bytes per record, so trace
files parse as fixed-layout 24-byte records. -/
theorem c2_traceEntry_packed_layout (e : TraceEntry) :
    (serializeTraceEntry e).length = 24 ∧
    readLE (serializeTraceEntry e) 0 4 = e.entryType % 2 ^ 32 ∧
    readLE (serializeTraceEntry e) 4 1 = e.Flag % 2 ^ 8 ∧
    readLE (serializeTraceEntry e) 5 1 = e.padding1 % 2 ^ 8 ∧
    readLE (serializeTraceEntry e) 6 2 = e.Param0 % 2 ^ 16 ∧
    readLE (serializeTraceEntry e) 8 8 = e.Param1 % 2 ^ 64 ∧
    readLE (serializeTraceEntry e) 16 8 = e.Param2 % 2 ^ 64 ∧
    ∀ es : List TraceEntry,
      ((es.map serializeTraceEntry).flatten).length = 24 * es.length := by
  refine ⟨by rw [serializeTraceEntry_length]; rfl, ?_, ?_, ?_, ?_, ?_, ?_,
    flatten_serialize_length⟩
  · rw [show serializeTraceEntry e = [] ++ serializeU 4 e.entryType ++
      (serializeU 1 e.Flag ++ (serializeU 1 e.padding1 ++
        (serializeU 2 e.Param0 ++ (serializeU 8 e.Param1 ++
          serializeU 8 e.Param2)))) from by
        simp [serializeTraceEntry, List.append_assoc]]
    rw [readLE_at _ _ _ 0 4 (by rfl) (serializeU_length 4 e.entryType),
      readLEList_serializeU]
    norm_num
  · rw [show serializeTraceEntry e = serializeU 4 e.entryType ++
      serializeU 1 e.Flag ++ (serializeU 1 e.padding1 ++
        (serializeU 2 e.Param0 ++ (serializeU 8 e.Param1 ++
          serializeU 8 e.Param2))) from by
        simp [serializeTraceEntry, List.append_assoc]]
    rw [readLE_at _ _ _ 4 1 (serializeU_length 4 e.entryType)
      (serializeU_length 1 e.Flag), readLEList_serializeU]
    norm_num
  · rw [show serializeTraceEntry e = (serializeU 4 e.entryType ++
      serializeU 1 e.Flag) ++ serializeU 1 e.padding1 ++
        (serializeU 2 e.Param0 ++ (serializeU 8 e.Param1 ++
          serializeU 8 e.Param2)) from by
        simp [serializeTraceEntry, List.append_assoc]]
    rw [readLE_at _ _ _ 5 1 (by
        simp [List.length_append, serializeU_length])
      (serializeU_length 1 e.padding1), readLEList_serializeU]
    norm_num
  · rw [show serializeTraceEntry e = (serializeU 4 e.entryType ++
      serializeU 1 e.Flag ++ serializeU 1 e.padding1) ++
        serializeU 2 e.Param0 ++ (serializeU 8 e.Param1 ++
          serializeU 8 e.Param2) from by
        simp [serializeTraceEntry, List.append_assoc]]
    rw [readLE_at _ _ _ 6 2 (by
        simp [List.length_append, serializeU_length])
      (serializeU_length 2 e.Param0), readLEList_serializeU]
    norm_num
  · rw [show serializeTraceEntry e = (serializeU 4 e.entryType ++
      serializeU 1 e.Flag ++ serializeU 1 e.padding1 ++
        serializeU 2 e.Param0) ++ serializeU 8 e.Param1 ++
          serializeU 8 e.Param2 from by
        simp [serializeTraceEntry, List.append_assoc]]
    rw [readLE_at _ _ _ 8 8 (by
        simp [List.length_append, serializeU_length])
      (serializeU_length 8 e.Param1), readLEList_serializeU]
    norm_num
  · rw [show serializeTraceEntry e = (serializeU 4 e.entryType ++
      serializeU 1 e.Flag ++ serializeU 1 e.padding1 ++
        serializeU 2 e.Param0 ++ serializeU 8 e.Param1) ++
          serializeU 8 e.Param2 ++ [] from by
        simp [serializeTraceEntry, List.append_assoc]]
    rw [readLE_at _ _ _ 16 8 (by
        simp [List.length_append, serializeU_length])
      (serializeU_length 8 e.Param2), readLEList_serializeU]
    norm_num

/-- The three branch kinds the planner distinguishes: plain
(conditional/unconditional) jumps, calls, and returns. -/
inductive BranchKind where
  | jump
  | call
  | ret
  deriving DecidableEq, Repr

/-- The spec's branch-kind code: jump = 1, call = 2, ret = 3. -/
def branchKindCode : BranchKind → Nat
  | .jump => 1
  | .call => 2
  | .ret => 3

/-- The `TraceEntryFlags` enumerator the planner passes to
`InsertBranchEntry` for each branch kind. -/
def branchTypeFlagValue : BranchKind → Nat
  | .jump => TraceEntryFlags.BranchTypeJump
  | .call => TraceEntryFlags.BranchTypeCall
  | .ret => TraceEntryFlags.BranchTypeReturn

/-- C4: every Branch entry written by `InsertBranchEntry` (with the
enumerator for kind `k` and taken bit `t ∈ {0,1}`) or by
`InsertRetBranchEntry` carries `flag = (k_code <<< 1) ||| t` with
`k_code` 1/2/3 for jump/call/ret, and bit 0 of the flag equals the
taken predicate. -/
theorem c4_branch_flag_encoding (k : BranchKind) (t : Nat) (ht : t ≤ 1) :
    (∀ (buf : List TraceEntry) (i src tgt : Nat),
      InsertBranchEntry buf (some i) src tgt t (branchTypeFlagValue k) =
        .ok (some (i + 1)) (buf.set i
          { buf.getD i default with
            entryType := TraceEntryTypes.Branch
            Param1 := src
            Param2 := tgt
            Flag := (branchKindCode k <<< 1) ||| t })) ∧
    ((branchKindCode k <<< 1) ||| t) % 2 = t ∧
    (∀ (buf : List TraceEntry) (i src retAddress : Nat),
      InsertRetBranchEntry buf (some i) src retAddress =
        .ok (some (i + 1)) (buf.set i
          { buf.getD i default with
            entryType := TraceEntryTypes.Branch
            Param1 := src
            Param2 := retAddress
            Flag := (branchKindCode .ret <<< 1) ||| 1 })) := by
  have h01 : t = 0 ∨ t = 1 := by omega
  refine ⟨?_, ?_, ?_⟩
  · intro buf i src tgt
    rcases h01 with rfl | rfl <;> cases k <;>
      simp [InsertBranchEntry, branchTypeFlagValue, branchKindCode,
        TraceEntryFlags.BranchTypeJump, TraceEntryFlags.BranchTypeCall,
        TraceEntryFlags.BranchTypeReturn, TraceEntryFlags.BranchNotTaken,
        TraceEntryFlags.BranchTaken]
  · rcases h01 with rfl | rfl <;> cases k <;> decide
  · intro buf i src retAddress
    simp [InsertRetBranchEntry, InsertBranchEntry, branchKindCode,
      TraceEntryFlags.BranchTypeReturn, TraceEntryFlags.BranchTaken]

theorem c4_branch_flag_encoding_witness :
    InsertBranchEntry [default] (some 0) 100 200 1
        TraceEntryFlags.BranchTypeCall =
      .ok (some 1)
        [{ (default : TraceEntry) with
            entryType := TraceEntryTypes.Branch
            Param1 := 100
            Param2 := 200
            Flag := 5 }] ∧
    (5 : Nat) % 2 = 1 := by
  have h := c4_branch_flag_encoding .call 1 (by decide)
  refine ⟨?_, by decide⟩
  have h1 := h.1 [default] 0 100 200
  simpa [branchTypeFlagValue, branchKindCode] using h1

/-- C8 counterexample: the memory-read and stack-pointer-info insertion
helpers in `TraceWriter.cpp` have no null-pointer guard; invoked with a
null next-entry pointer they dereference it rather than being a no-op
that returns null. -/
theorem c8_counterexample :
    InsertMemoryReadEntry [] none 0 0 0 = .nullDeref ∧
    InsertStackPointerInfoEntry [] none 0 0 = .nullDeref ∧
    ¬ InsertMemoryReadEntry [] none 0 0 0 = .ok none [] := by
  decide

/-- C8 (amended): only the heap-allocation-size, calloc-size,
heap-allocation-return, heap-free and stack-pointer-modification
helpers check for a null next-entry pointer and are safe no-ops
returning null; the memory-read, memory-write, branch, ret-branch and
stack-pointer-info helpers have no such guard and dereference the
pointer.  `CheckNextTraceEntryPointerValid` is false exactly on a null
pointer, and the if/then hook pairs `InstrumentTrace` emits around the
memory-read, memory-write, branch and ret-branch helpers therefore skip
them on a null pointer; `InsertStackPointerInfoEntry`'s only insertion
site (the unguarded `RTN_InsertCall` in `InstrumentImage`) has no such
protection, so a null pointer reaching it dereferences null. -/
theorem c8_amended_null_pointer_behavior :
    (∀ (buf : List TraceEntry) size,
      InsertHeapAllocSizeParameterEntry buf none size = .ok none buf) ∧
    (∀ (buf : List TraceEntry) count size,
      InsertCallocSizeParameterEntry buf none count size = .ok none buf) ∧
    (∀ (buf : List TraceEntry) a,
      InsertHeapAllocAddressReturnEntry buf none a = .ok none buf) ∧
    (∀ (buf : List TraceEntry) a,
      InsertHeapFreeAddressParameterEntry buf none a = .ok none buf) ∧
    (∀ (buf : List TraceEntry) a b f,
      InsertStackPointerModificationEntry buf none a b f = .ok none buf) ∧
    CheckNextTraceEntryPointerValid none = false ∧
    (∀ i, CheckNextTraceEntryPointerValid (some i) = true) ∧
    (∀ (buf : List TraceEntry) a b c,
      InsertMemoryReadEntry buf none a b c = .nullDeref) ∧
    (∀ (buf : List TraceEntry) a b c,
      InsertMemoryWriteEntry buf none a b c = .nullDeref) ∧
    (∀ (buf : List TraceEntry) a b t ty,
      InsertBranchEntry buf none a b t ty = .nullDeref) ∧
    (∀ (buf : List TraceEntry) a b,
      InsertRetBranchEntry buf none a b = .nullDeref) ∧
    (∀ (buf : List TraceEntry) a b,
      InsertStackPointerInfoEntry buf none a b = .nullDeref) ∧
    (∀ (buf : List TraceEntry) a b c,
      guardedInsertCall buf none
        (fun bf n => InsertMemoryReadEntry bf n a b c) = .ok none buf) ∧
    (∀ (buf : List TraceEntry) a b c,
      guardedInsertCall buf none
        (fun bf n => InsertMemoryWriteEntry bf n a b c) = .ok none buf) ∧
    (∀ (buf : List TraceEntry) a b t ty,
      guardedInsertCall buf none
        (fun bf n => InsertBranchEntry bf n a b t ty) = .ok none buf) ∧
    (∀ (buf : List TraceEntry) a b,
      guardedInsertCall buf none
        (fun bf n => InsertRetBranchEntry bf n a b) = .ok none buf) := by
  refine ⟨?_, ?_, ?_, ?_, ?_, ?_, ?_, ?_, ?_, ?_, ?_, ?_, ?_, ?_, ?_, ?_⟩ <;>
    intros <;> rfl

/-- C7 counterexample: `841534158063459245` is exactly the sentinel
`0xBADBADBADBADBAD`, so running with `-r 841534158063459245` leaves
`_useFixedRandomNumber` false: no substitution hook is inserted and an
executed `rdrand` keeps the hardware entropy value (here `7`), not
`841534158063459245`. -/
theorem c7_counterexample :
    (841534158063459245 : Nat) = RDRAND_SENTINEL ∧
    useFixedRandomNumber 841534158063459245 = false ∧
    rdrandDestAfter 841534158063459245 7 = 7 ∧
    (7 : Nat) ≠ 841534158063459245 := by
  refine ⟨by decide, by decide, ?_, by decide⟩
  have h : useFixedRandomNumber 841534158063459245 = false := by decide
  simp [rdrandDestAfter, h]

/-- C7 (amended): for every `-r` value other than the sentinel
`0xBADBADBADBADBAD` (= 841534158063459245), every executed `rdrand`
leaves the destination register holding exactly that value, regardless
of host entropy; the sentinel value itself disables the substitution. -/
theorem c7_amended_fixed_rdrand (r hostEntropyValue : Nat)
    (h : r ≠ RDRAND_SENTINEL) :
    rdrandDestAfter r hostEntropyValue = r := by
  have hb : useFixedRandomNumber r = true := by
    simp [useFixedRandomNumber, h]
  simp [rdrandDestAfter, fixedRandomNumber, hb]

theorem c7_amended_fixed_rdrand_witness : rdrandDestAfter 5 99 = 5 :=
  c7_amended_fixed_rdrand 5 99 (by decide)

/-- C5: `ChangeCpuId` is the identity when no profile is selected
(profile ids outside 1..4 select no model); with a model selected it
rewrites leaf 0 to the profile's max leaf and the GenuineIntel vendor
dwords, leaf 1 to the encoded family (0x6fb for profile 2, Merom) and
the standard feature masks, leaf 0x80000000 to the max extended leaf,
leaf 0x80000001 to the extended masks when supported and zero
otherwise, leaf 7 subleaf 0 to the structured-extended mask when
supported and zero otherwise, and leaves every other leaf untouched. -/
theorem c5_ChangeCpuId_behavior :
    (∀ inputEax inputEcx regs,
      ChangeCpuId none inputEax inputEcx regs = regs) ∧
    (∀ id : Int, id < 1 ∨ 4 < id → SetEmulatedCpu id = none) ∧
    (∀ m inputEcx regs, ChangeCpuId (some m) 0 inputEcx regs =
      { regs with
        eax := m.max_input
        ebx := 0x756e6547
        edx := 0x49656e69
        ecx := 0x6c65746e }) ∧
    (∀ m inputEcx regs, ChangeCpuId (some m) 1 inputEcx regs =
      { regs with
        eax := m.encoded_family
        edx := m.features_edx
        ecx := m.features_ecx }) ∧
    (SetEmulatedCpu 2 = some model_Merom ∧
      model_Merom.encoded_family = 0x6fb ∧
      model_Merom.encoded_family = cpuid_encode_family 6 15 11) ∧
    (∀ m inputEcx regs, ChangeCpuId (some m) 0x80000000 inputEcx regs =
      { regs with eax := m.max_ext_input }) ∧
    (∀ m inputEcx regs, ChangeCpuId (some m) 0x80000001 inputEcx regs =
      if m.max_ext_input ≥ 0x80000001 then
        { regs with edx := m.features_ext_edx, ecx := m.features_ext_ecx }
      else
        { regs with edx := 0, ecx := 0 }) ∧
    (∀ m regs, ChangeCpuId (some m) 7 0 regs =
      if m.max_input ≥ 7 then { regs with ebx := m.features_sext_ebx }
      else { regs with ebx := 0 }) ∧
    (∀ m inputEax inputEcx regs, inputEax ≠ 0 → inputEax ≠ 1 →
      inputEax ≠ 0x80000000 → inputEax ≠ 0x80000001 →
      ¬(inputEax = 7 ∧ inputEcx = 0) →
      ChangeCpuId (some m) inputEax inputEcx regs = regs) := by
  refine ⟨fun _ _ _ => rfl, ?_, ?_, ?_, ⟨rfl, rfl, by decide⟩, ?_, ?_, ?_, ?_⟩
  · intro id hid
    unfold SetEmulatedCpu
    rw [if_neg (by omega), if_neg (by omega), if_neg (by omega),
      if_neg (by omega)]
  · intro m inputEcx regs
    simp [ChangeCpuId]
  · intro m inputEcx regs
    simp [ChangeCpuId]
  · intro m inputEcx regs
    simp [ChangeCpuId]
  · intro m inputEcx regs
    simp [ChangeCpuId]
  · intro m regs
    simp [ChangeCpuId]
  · intro m inputEax inputEcx regs h0 h1 h80 h81 h7
    simp [ChangeCpuId, h0, h1, h80, h81, h7]

theorem c5_ChangeCpuId_behavior_witness :
    SetEmulatedCpu 0 = none ∧
    ChangeCpuId (some model_Merom) 2 0 ⟨1, 2, 3, 4⟩ = ⟨1, 2, 3, 4⟩ :=
  ⟨c5_ChangeCpuId_behavior.2.1 0 (by decide),
    c5_ChangeCpuId_behavior.2.2.2.2.2.2.2.2 model_Merom 2 0 ⟨1, 2, 3, 4⟩
      (by decide) (by decide) (by decide) (by decide) (by decide)⟩

/-- C9: a basic block contained in no registered image is classified as
interesting (conservative), and the stderr warning is emitted exactly
when libc load is not pending (suppression modelled from the spec);
a block found in some image takes that image's interest flag without a
warning. -/
theorem c9_unresolved_block_conservative :
    (∀ (images : List ImageData) (libcLoadPending : Bool)
      (blockHeadAddress blockTailAddress : Nat),
      (∀ img ∈ images,
        img.ContainsBasicBlock blockHeadAddress blockTailAddress = false) →
      classifyBasicBlock images libcLoadPending blockHeadAddress
        blockTailAddress = (true, !libcLoadPending)) ∧
    (∀ (images : List ImageData) (libcLoadPending : Bool)
      (blockHeadAddress blockTailAddress : Nat) (img : ImageData),
      findContainingImage images blockHeadAddress blockTailAddress =
        some img →
      classifyBasicBlock images libcLoadPending blockHeadAddress
        blockTailAddress = (img.IsInteresting, false)) := by
  constructor
  · intro images libcLoadPending bh bt h
    have hfind : findContainingImage images bh bt = none := by
      rw [findContainingImage, List.find?_eq_none]
      intro img hm
      simp [h img hm]
    simp [classifyBasicBlock, hfind, warnOnUnresolvedBlock]
  · intro images libcLoadPending bh bt img hfind
    simp [classifyBasicBlock, hfind]

theorem c9_unresolved_block_conservative_witness :
    classifyBasicBlock
      [⟨true, "libtarget.so", 1000, 2000⟩] false 5000 5010 =
      (true, true) :=
  c9_unresolved_block_conservative.1
    [⟨true, "libtarget.so", 1000, 2000⟩] false 5000 5010
    (by intro img hm; simp at hm; simp [hm, ImageData.ContainsBasicBlock])

/-- Record-update normal form of `WriteBufferToFile`. -/
theorem WriteBufferToFile_eq (s : TracerState) (endIdx : Nat) :
    WriteBufferToFile s endIdx =
      { s with outputFileBytes := s.outputFileBytes +
          (if s.testcaseId != -1 || s.prefixMode then
            endIdx * sizeofTraceEntry else 0) } := by
  cases s
  unfold WriteBufferToFile
  split <;> simp_all

/-- The bytes a `TestcaseEnd(nextEntry)` flush appends to the current
output file: `nextEntry` whole entries when the buffer is non-empty and
the writer is not idle, nothing otherwise. -/
def flushAddBytes (s : TracerState) (nextEntry : Nat) : Nat :=
  if nextEntry != 0 && (s.testcaseId != -1 || s.prefixMode) then
    nextEntry * sizeofTraceEntry
  else 0

/-- Record-update normal form of `TestcaseEnd`. -/
theorem TestcaseEnd_eq (nextEntry : Nat) (s : TracerState) :
    TestcaseEnd nextEntry s =
      { outputFilenamePfx := s.outputFilenamePfx
        currentOutputFilename := s.currentOutputFilename
        outputFileBytes := s.outputFileBytes + flushAddBytes s nextEntry
        closedFiles := (s.currentOutputFilename,
          s.outputFileBytes + flushAddBytes s nextEntry) :: s.closedFiles
        testcaseId := -1
        prefixMode := false
        prefixDataOpen := if s.prefixMode then false else s.prefixDataOpen
        prefixDataLines := s.prefixDataLines
        stdoutLines := if s.prefixMode then s.stdoutLines
          else s.stdoutLines ++ ["t\t" ++ s.currentOutputFilename]
        stderrLines := if s.prefixMode then
            s.stderrLines ++ ["Trace prefix mode ended"]
          else s.stderrLines
        images := s.images } := by
  cases s
  simp only [TestcaseEnd, WriteBufferToFile_eq, flushAddBytes]
  split_ifs <;> simp_all

/-- Record-update normal form of `TestcaseStart`. -/
theorem TestcaseStart_eq (id : Int) (nextEntry : Nat) (s : TracerState) :
    TestcaseStart id nextEntry s =
      { outputFilenamePfx := s.outputFilenamePfx
        currentOutputFilename :=
          s.outputFilenamePfx ++ "t" ++ toString id ++ ".trace"
        outputFileBytes := 0
        closedFiles := if s.prefixMode then
            (s.currentOutputFilename,
              s.outputFileBytes + flushAddBytes s nextEntry) :: s.closedFiles
          else s.closedFiles
        testcaseId := id
        prefixMode := false
        prefixDataOpen := if s.prefixMode then false else s.prefixDataOpen
        prefixDataLines := s.prefixDataLines
        stdoutLines := s.stdoutLines
        stderrLines := (if s.prefixMode then
            s.stderrLines ++ ["Trace prefix mode ended"]
          else s.stderrLines) ++
            ["Switched to testcase #" ++ toString id]
        images := s.images } := by
  simp only [TestcaseStart, TestcaseEnd_eq, OpenOutputFile]
  cases s
  split_ifs <;> simp_all [flushAddBytes]

/-- C10: once prefix mode has ended (it is false after any
`TestcaseStart`), `WriteImageLoadData` leaves the prefix metadata file
untouched and only logs the ignore line to stderr, while
`InstrumentImage` still appends the image record to the process-wide
registry (and does not resurrect prefix mode). -/
theorem c10_image_loads_after_prefix_phase (s : TracerState)
    (interesting : Bool) (imageName : String) (imageStart imageEnd : Nat)
    (h : s.prefixMode = false) :
    (∀ id nextEntry s₀,
      (TestcaseStart id nextEntry s₀).prefixMode = false) ∧
    (InstrumentImage s interesting imageName imageStart
        imageEnd).prefixDataLines = s.prefixDataLines ∧
    (InstrumentImage s interesting imageName imageStart imageEnd).images =
      s.images ++ [⟨interesting, imageName, imageStart, imageEnd⟩] ∧
    (InstrumentImage s interesting imageName imageStart
        imageEnd).prefixMode = false ∧
    WriteImageLoadData s (if interesting then 1 else 0) imageStart imageEnd
        imageName =
      { s with stderrLines :=
          s.stderrLines ++ ["Image load ignored: " ++ imageName] } := by
  refine ⟨?_, ?_, ?_, ?_, ?_⟩
  · intro id nextEntry s₀
    rw [TestcaseStart_eq]
  · simp [InstrumentImage, WriteImageLoadData, h]
  · simp [InstrumentImage, WriteImageLoadData, h]
  · simp [InstrumentImage, WriteImageLoadData, h]
  · simp [WriteImageLoadData, h]

theorem c10_image_loads_after_prefix_phase_witness :
    (InstrumentImage (TestcaseStart 1 0 (initialTracerState "out")) true
        "libfoo.so" 4096 8192).prefixDataLines =
      (TestcaseStart 1 0 (initialTracerState "out")).prefixDataLines :=
  (c10_image_loads_after_prefix_phase (TestcaseStart 1 0 (initialTracerState "out"))
    true "libfoo.so" 4096 8192
    (by rw [TestcaseStart_eq])).2.1

/-- C3: `TestcaseEnd(next)` flushes `[begin, next)` exactly when the
buffer is non-empty — and a flush writes bytes only when the testcase id
is not `-1` or prefix mode is active — closes the output file (recording
its final size), in prefix mode closes the metadata file and clears
prefix mode, otherwise emits exactly one completion line
`"t\t{path}"` naming the current trace file on stdout, and finally sets
the testcase id to `-1`, so any later flush while idle leaves the state
unchanged. -/
theorem c3_TestcaseEnd_behavior (nextEntry : Nat) (s : TracerState) :
    (TestcaseEnd nextEntry s).testcaseId = -1 ∧
    (TestcaseEnd nextEntry s).closedFiles =
      (s.currentOutputFilename,
        s.outputFileBytes +
          (if nextEntry != 0 && (s.testcaseId != -1 || s.prefixMode) then
            nextEntry * sizeofTraceEntry else 0)) :: s.closedFiles ∧
    (TestcaseEnd nextEntry s).prefixMode = false ∧
    (TestcaseEnd nextEntry s).prefixDataOpen =
      (if s.prefixMode then false else s.prefixDataOpen) ∧
    (TestcaseEnd nextEntry s).stdoutLines =
      (if s.prefixMode then s.stdoutLines
       else s.stdoutLines ++ ["t\t" ++ s.currentOutputFilename]) ∧
    (∀ endIdx,
      WriteBufferToFile (TestcaseEnd nextEntry s) endIdx =
        TestcaseEnd nextEntry s) := by
  refine ⟨by rw [TestcaseEnd_eq], by rw [TestcaseEnd_eq, flushAddBytes],
    by rw [TestcaseEnd_eq], by rw [TestcaseEnd_eq], by rw [TestcaseEnd_eq],
    ?_⟩
  intro endIdx
  rw [WriteBufferToFile_eq, TestcaseEnd_eq]
  simp

theorem trackerRun_append (es fs : List TrackerEvent) (d : Int) :
    trackerRun d (es ++ fs) =
      ((trackerRun (trackerRun d es).1 fs).1,
        (trackerRun d es).2 ++ (trackerRun (trackerRun d es).1 fs).2) := by
  induction es generalizing d with
  | nil => simp [trackerRun]
  | cons e es ih =>
      simp only [List.cons_append, trackerRun]
      cases h : trackerStep d e with
      | mk d1 emitted => simp [ih, List.append_assoc]

theorem trackerRun_balanced (es : List TrackerEvent) (d : Int)
    (hd : 0 ≤ d) (hpref : ∀ k, 0 ≤ d + netDepth (es.take k)) :
    trackerRun d es = (d + netDepth es, []) := by
  induction es generalizing d with
  | nil => simp [trackerRun, netDepth]
  | cons e es ih =>
      cases e with
      | call =>
          have hstep : trackerStep d .call = (d + 1, none) := by
            simp [trackerStep, hd]
          have hpref1 : ∀ k, 0 ≤ (d + 1) + netDepth (es.take k) := by
            intro k
            have := hpref (k + 1)
            simp only [List.take_succ_cons, netDepth] at this
            omega
          simp only [trackerRun, hstep, ih (d + 1) (by omega) hpref1,
            netDepth]
          rw [Prod.mk.injEq]
          exact ⟨by omega, rfl⟩
      | ret v =>
          have h1 : (1 : Int) ≤ d := by
            have := hpref 1
            simp only [List.take_succ_cons, List.take_zero, netDepth] at this
            omega
          have hstep : trackerStep d (.ret v) = (d - 1, none) := by
            simp only [trackerStep]
            rw [if_neg (by omega), if_neg (by omega)]
          have hpref1 : ∀ k, 0 ≤ (d - 1) + netDepth (es.take k) := by
            intro k
            have := hpref (k + 1)
            simp only [List.take_succ_cons, netDepth] at this
            omega
          simp only [trackerRun, hstep, ih (d - 1) (by omega) hpref1,
            netDepth]
          rw [Prod.mk.injEq]
          exact ⟨by omega, rfl⟩

/-- C6: from the moment an instrumented allocator is entered (arming the
tracker and emitting the `HeapAllocSizeParameter` entry), any balanced
call chain — every prefix has non-negative net depth and the chain
returns to its initial frame — followed by the final `ret` carrying
address `A` yields exactly one `HeapAllocAddressReturn` entry with
`param2 = A`, immediately following the size entry, and deactivates the
tracker (depth `-1`). -/
theorem c6_allocation_return_pairing (size A : Nat)
    (events : List TrackerEvent)
    (hpref : ∀ k, 0 ≤ netDepth (events.take k))
    (hbal : netDepth events = 0) :
    allocatorTrackerTrace size events A =
      [{ (default : TraceEntry) with
          entryType := TraceEntryTypes.HeapAllocSizeParameter
          Param1 := size },
        { (default : TraceEntry) with
          entryType := TraceEntryTypes.HeapAllocAddressReturn
          Param2 := A }] ∧
    (trackerRun 0 (events ++ [.ret A])).1 = -1 := by
  have hrun : trackerRun 0 events = (0, []) := by
    have h := trackerRun_balanced events 0 le_rfl (by simpa using hpref)
    simpa [hbal] using h
  have hlast : trackerRun 0 [TrackerEvent.ret A] = (-1, [A]) := by
    simp [trackerRun, trackerStep]
  have happ := trackerRun_append events [.ret A] 0
  rw [hrun] at happ
  simp only [hlast] at happ
  constructor
  · rw [allocatorTrackerTrace, happ]
    simp
  · rw [happ]

theorem c6_allocation_return_pairing_witness :
    allocatorTrackerTrace 64 [TrackerEvent.call, .ret 0] 0xABCD0000 =
      [{ (default : TraceEntry) with
          entryType := TraceEntryTypes.HeapAllocSizeParameter
          Param1 := 64 },
        { (default : TraceEntry) with
          entryType := TraceEntryTypes.HeapAllocAddressReturn
          Param2 := 0xABCD0000 }] :=
  (c6_allocation_return_pairing 64 0xABCD0000 [TrackerEvent.call, .ret 0]
    (by
      intro k
      match k with
      | 0 => decide
      | 1 => decide
      | k + 2 =>
          simp only [List.take_succ_cons, List.take_nil]
          decide)
    (by decide)).1

theorem flushAdd_mod (s : TracerState) (nextEntry : Nat)
    (h1 : s.outputFileBytes % sizeofTraceEntry = 0) :
    (s.outputFileBytes + flushAddBytes s nextEntry) % sizeofTraceEntry
      = 0 := by
  rw [flushAddBytes]
  split <;> simp only [sizeofTraceEntry] at * <;> omega

theorem SizesOk_WriteBufferToFile (s : TracerState) (endIdx : Nat)
    (h : SizesOk s) : SizesOk (WriteBufferToFile s endIdx) := by
  obtain ⟨h1, h2⟩ := h
  rw [WriteBufferToFile_eq]
  refine ⟨?_, h2⟩
  split <;> simp only [sizeofTraceEntry] at * <;> omega

theorem SizesOk_TestcaseEnd (nextEntry : Nat) (s : TracerState)
    (h : SizesOk s) : SizesOk (TestcaseEnd nextEntry s) := by
  obtain ⟨h1, h2⟩ := h
  rw [TestcaseEnd_eq]
  refine ⟨flushAdd_mod s nextEntry h1, ?_⟩
  intro f hf
  simp only [List.mem_cons] at hf
  rcases hf with rfl | hf
  · exact flushAdd_mod s nextEntry h1
  · exact h2 f hf

theorem SizesOk_TestcaseStart (id : Int) (nextEntry : Nat)
    (s : TracerState) (h : SizesOk s) :
    SizesOk (TestcaseStart id nextEntry s) := by
  obtain ⟨h1, h2⟩ := h
  rw [TestcaseStart_eq]
  refine ⟨by simp, ?_⟩
  intro f hf
  simp only at hf
  split at hf
  · simp only [List.mem_cons] at hf
    rcases hf with rfl | hf
    · exact flushAdd_mod s nextEntry h1
    · exact h2 f hf
  · exact h2 f hf

theorem eventStep_insert (s : TracerState) (next : Nat) :
    eventStep (s, next) .insertEntry =
      if next + 1 = ENTRY_BUFFER_SIZE then
        (WriteBufferToFile s ENTRY_BUFFER_SIZE, 0)
      else (s, next + 1) := by
  by_cases h : next + 1 = ENTRY_BUFFER_SIZE <;>
    simp [eventStep, CheckBufferAndStore, CheckBufferFull, h]

/-- The invariant of the instrumented thread's run: the next-entry index
stays strictly below the buffer end and all file sizes remain whole
numbers of entries. -/
def BufInv (p : TracerState × Nat) : Prop :=
  p.2 < ENTRY_BUFFER_SIZE ∧ SizesOk p.1

theorem eventStep_preserves (p : TracerState × Nat) (ev : TraceEvent)
    (h : BufInv p) : BufInv (eventStep p ev) := by
  obtain ⟨s, next⟩ := p
  obtain ⟨hn, hs⟩ := h
  have hN : ENTRY_BUFFER_SIZE = 16384 := rfl
  cases ev with
  | insertEntry =>
      rw [eventStep_insert]
      split
      · exact ⟨by omega, SizesOk_WriteBufferToFile s ENTRY_BUFFER_SIZE hs⟩
      · refine ⟨?_, hs⟩
        simp only at hn ⊢
        omega
  | testcaseStart id =>
      exact ⟨by simp only [eventStep]; omega,
        SizesOk_TestcaseStart id next s hs⟩
  | testcaseEnd =>
      exact ⟨by simp only [eventStep]; omega,
        SizesOk_TestcaseEnd next s hs⟩

theorem runEvents_inv (events : List TraceEvent) (p : TracerState × Nat)
    (h : BufInv p) : BufInv (runEvents p events) := by
  induction events generalizing p with
  | nil => exact h
  | cons e es ih => exact ih (eventStep p e) (eventStep_preserves p e h)

/-- C1: every insertion helper advances the (non-null) next-entry
pointer by exactly one entry; each insertion is followed by the
buffer-full check, so after an insert-and-check step the pointer is back
strictly inside `[begin, end)` — when the insert reached `end`, the step
stores the full buffer via `WriteBufferToFile` (which writes
`ENTRY_BUFFER_SIZE` whole entries to the current output file whenever
the writer is not idle) and resets the pointer to `begin` — and over any
run of events from the initial state the pointer never leaves the buffer
and every output file's size is a multiple of `sizeof(TraceEntry)` =
24. -/
theorem c1_buffer_never_overflows :
    (∀ (buf : List TraceEntry) (i : Nat),
      (∀ a b c, (InsertMemoryReadEntry buf (some i) a b c).ptr =
        some (i + 1)) ∧
      (∀ a b c, (InsertMemoryWriteEntry buf (some i) a b c).ptr =
        some (i + 1)) ∧
      (∀ a, (InsertHeapAllocSizeParameterEntry buf (some i) a).ptr =
        some (i + 1)) ∧
      (∀ a b, (InsertCallocSizeParameterEntry buf (some i) a b).ptr =
        some (i + 1)) ∧
      (∀ a, (InsertHeapAllocAddressReturnEntry buf (some i) a).ptr =
        some (i + 1)) ∧
      (∀ a, (InsertHeapFreeAddressParameterEntry buf (some i) a).ptr =
        some (i + 1)) ∧
      (∀ a b f, (InsertStackPointerModificationEntry buf (some i) a b f).ptr =
        some (i + 1)) ∧
      (∀ a b t ty, (InsertBranchEntry buf (some i) a b t ty).ptr =
        some (i + 1)) ∧
      (∀ a b, (InsertRetBranchEntry buf (some i) a b).ptr = some (i + 1)) ∧
      (∀ a b, (InsertStackPointerInfoEntry buf (some i) a b).ptr =
        some (i + 1))) ∧
    (∀ (s : TracerState) (next : Nat), next < ENTRY_BUFFER_SIZE →
      next + 1 ≤ ENTRY_BUFFER_SIZE ∧
      (eventStep (s, next) .insertEntry).2 < ENTRY_BUFFER_SIZE) ∧
    (∀ (s : TracerState) (next : Nat), next + 1 = ENTRY_BUFFER_SIZE →
      eventStep (s, next) .insertEntry =
        (WriteBufferToFile s ENTRY_BUFFER_SIZE, 0)) ∧
    (∀ (s : TracerState) (next : Nat), next + 1 < ENTRY_BUFFER_SIZE →
      eventStep (s, next) .insertEntry = (s, next + 1)) ∧
    (∀ (pfx : String) (events : List TraceEvent),
      (runEvents (initialTracerState pfx, 0) events).2 <
        ENTRY_BUFFER_SIZE ∧
      SizesOk (runEvents (initialTracerState pfx, 0) events).1) := by
  have hN : ENTRY_BUFFER_SIZE = 16384 := rfl
  refine ⟨?_, ?_, ?_, ?_, ?_⟩
  · intro buf i
    refine ⟨?_, ?_, ?_, ?_, ?_, ?_, ?_, ?_, ?_, ?_⟩ <;> intros <;> rfl
  · intro s next h
    refine ⟨by omega, ?_⟩
    rw [eventStep_insert]
    split <;> simp <;> omega
  · intro s next h
    rw [eventStep_insert, if_pos h]
  · intro s next h
    rw [eventStep_insert, if_neg (by omega)]
  · intro pfx events
    exact runEvents_inv events (initialTracerState pfx, 0)
      ⟨by omega, by simp [initialTracerState, SizesOk]⟩

theorem c1_buffer_never_overflows_witness :
    (5 : Nat) + 1 ≤ ENTRY_BUFFER_SIZE ∧
    (eventStep (initialTracerState "out", 5) .insertEntry).2 <
      ENTRY_BUFFER_SIZE :=
  c1_buffer_never_overflows.2.1 (initialTracerState "out") 5 (by decide)
